import Mathlib

/-!
Shallow embedding of the shieldcheck-react repository.

The repository is a React single-page app with two parts relevant to the
frozen claims:

* `src/src/components/url-scanner.tsx` — the `UrlScanner` widget: camera
  lifecycle (`startCamera` / `stopCamera` / `handleOpen` / `handleClose`),
  frame capture (`captureImage`), retake (`retakePhoto`) and OCR-based URL
  extraction (`confirmImage`, regex `/(https?:\/\/[^\s]+)/g`).
* `src/unnamed/part_000` — the page with the remote submission flow
  (`handleSubmit`: HTTP status → message mapping, response → `AnalysisResult`
  mapping) and `src/src/app/actions.ts` — the mock backend `analyzeWebsite`.

React component state (`useState` setters) is embedded as explicit state
passing over a `ScannerState` record: each event handler becomes a function
`ScannerState → ... → ScannerState × List Effect`, where the `Effect` trace
records the externally observable actions (stopping a media track, alerting
the user, invoking the OCR engine, reporting a URL through `onUrlDetected`).
Sequential `setX(...)` calls are last-write-wins record updates, matching
React's batched state-update semantics inside one handler invocation.
-/

namespace ShieldCheck

/-- Externally observable actions of the scanner widget. `stopTrack id`
models `track.stop()` on a media track, `alertMsg` models `alert(...)`,
`recognize` models handing the captured image to the OCR engine, and
`urlDetected` models the `onUrlDetected` callback to the caller. -/
inductive Effect where
  | stopTrack (id : Nat)
  | alertMsg (msg : String)
  | recognize (img : String)
  | urlDetected (url : String)
deriving DecidableEq

/-- A `MediaStream` as held by the widget: its list of tracks, identified by
numeric ids. -/
structure MediaStream where
  tracks : List Nat
deriving DecidableEq

/-- The component-local state of `UrlScanner`
(src/src/components/url-scanner.tsx lines 14–19): `isOpen`, `isProcessing`,
`stream`, `capturedImage`, `isCameraReady`. The `videoRef` DOM handle is not
state; its relevant observations (presence, `readyState`) are inputs to the
handlers that read them. -/
structure ScannerState where
  isOpen : Bool
  isProcessing : Bool
  stream : Option MediaStream
  capturedImage : Option String
  isCameraReady : Bool
deriving DecidableEq

/-- Outcome of the `getUserMedia` permission request. -/
inductive CameraResult where
  | granted (ms : MediaStream)
  | denied
deriving DecidableEq

/-- Alert text shown by `startCamera` when camera access fails
(url-scanner.tsx line 49). -/
def cameraPermissionAlert : String :=
  "Unable to access camera. Please make sure you have granted camera permissions."

/-- Alert text shown by `captureImage` on a capture failure
(url-scanner.tsx line 110). -/
def captureAlert : String := "Error capturing image. Please try again."

/-- Alert text shown by `confirmImage` when no URL is found
(url-scanner.tsx line 145). -/
def noUrlAlert : String := "No URL detected in the image. Please try again."

/-- Alert text shown by `confirmImage` when the OCR engine fails
(url-scanner.tsx line 149). -/
def recognitionAlert : String := "Error recognizing URL. Please try again."

/-- `stopCamera` (url-scanner.tsx lines 53–60): if a stream is held, stop
every track and drop the reference; then unconditionally clear the captured
image and the readiness flag. -/
def stopCamera (s : ScannerState) : ScannerState × List Effect :=
  let p : ScannerState × List Effect :=
    match s.stream with
    | some ms => ({ s with stream := none }, ms.tracks.map Effect.stopTrack)
    | none => (s, [])
  ({ p.1 with capturedImage := none, isCameraReady := false }, p.2)

/-- `startCamera` (url-scanner.tsx lines 22–51): clear the readiness flag,
then request the camera; on grant store the stream, on denial alert the user
(the `catch` branch changes no state beyond the already-cleared flag). -/
def startCamera (s : ScannerState) (res : CameraResult) : ScannerState × List Effect :=
  let s1 := { s with isCameraReady := false }
  match res with
  | .granted ms => ({ s1 with stream := some ms }, [])
  | .denied => (s1, [Effect.alertMsg cameraPermissionAlert])

/-- `handleOpen` (url-scanner.tsx lines 62–65): open the dialog, then start
the camera. -/
def handleOpen (s : ScannerState) (res : CameraResult) : ScannerState × List Effect :=
  startCamera { s with isOpen := true } res

/-- `handleClose` (url-scanner.tsx lines 67–70): close the dialog, then stop
the camera. -/
def handleClose (s : ScannerState) : ScannerState × List Effect :=
  stopCamera { s with isOpen := false }

/-- `retakePhoto` (url-scanner.tsx lines 118–121): discard the captured image
and start the camera again. -/
def retakePhoto (s : ScannerState) (res : CameraResult) : ScannerState × List Effect :=
  startCamera { s with capturedImage := none } res

/-- `captureImage` (url-scanner.tsx lines 72–116). Inputs observed from the
DOM: `videoPresent` (`videoRef.current` non-null), `ctxPresent`
(`canvas.getContext` non-null), `readyEnough` (`video.readyState ===
video.HAVE_ENOUGH_DATA`), and `imageData` (the result of
`canvas.toDataURL`). The guard returns silently when the video ref is absent
or the camera not ready; otherwise `isProcessing` is set for the duration.
On a valid payload (`imageData && imageData.length > 100`) the image is
stored and `stopCamera` runs; on an invalid payload or unready video the
`catch` branch alerts and clears the captured image; the `finally` branch
clears `isProcessing`. -/
def captureImage (s : ScannerState) (videoPresent ctxPresent readyEnough : Bool)
    (imageData : String) : ScannerState × List Effect :=
  if !videoPresent || !s.isCameraReady then (s, [])
  else
    let s1 := { s with isProcessing := true }
    let p : ScannerState × List Effect :=
      if !ctxPresent then (s1, [])
      else if readyEnough then
        if imageData ≠ "" ∧ imageData.length > 100 then
          stopCamera { s1 with capturedImage := some imageData }
        else
          ({ s1 with capturedImage := none }, [Effect.alertMsg captureAlert])
      else
        ({ s1 with capturedImage := none }, [Effect.alertMsg captureAlert])
    ({ p.1 with isProcessing := false }, p.2)

/-- Whitespace class `\s` of JavaScript regular expressions, used by the
negated class `[^\s]` in the URL regex of `confirmImage`. -/
def jsWhitespace (c : Char) : Bool :=
  let n := c.toNat
  n = 32 || n = 9 || n = 10 || n = 13 || n = 11 || n = 12 || n = 0xa0 ||
  n = 0x1680 || (0x2000 ≤ n && n ≤ 0x200a) || n = 0x2028 || n = 0x2029 ||
  n = 0x202f || n = 0x205f || n = 0x3000 || n = 0xfeff

/-- Greedy `[^\s]+` run: the maximal leading run of non-whitespace
characters. -/
def takeNonSpace : List Char → List Char
  | [] => []
  | c :: cs => if jsWhitespace c then [] else c :: takeNonSpace cs

/-- The characters of the literal `https://`. -/
def httpsLit : List Char := 'h' :: 't' :: 't' :: 'p' :: 's' :: ':' :: '/' :: '/' :: []

/-- The characters of the literal `http://`. -/
def httpLit : List Char := 'h' :: 't' :: 't' :: 'p' :: ':' :: '/' :: '/' :: []

/-- Tests whether the pattern `p` is a leading segment of `cs`. -/
def leadsWith : List Char → List Char → Bool
  | [], _ => true
  | _ :: _, [] => false
  | a :: ps, b :: cs => a = b && leadsWith ps cs

/-- A match of the regex `https?:\/\/[^\s]+` anchored at the start of `cs`:
the scheme alternative `https` is tried before `http` (a greedy `s?`), then
`[^\s]+` takes the maximal non-whitespace run, which must be non-empty.
Returns the matched characters. -/
def matchAt (cs : List Char) : Option (List Char) :=
  if leadsWith httpsLit cs then
    let run := takeNonSpace (cs.drop 8)
    if run = [] then none else some (httpsLit ++ run)
  else if leadsWith httpLit cs then
    let run := takeNonSpace (cs.drop 7)
    if run = [] then none else some (httpLit ++ run)
  else none

/-- The first (leftmost) match of `text.match(/(https?:\/\/[^\s]+)/g)`,
i.e. `urlMatch[0]` in `confirmImage` (url-scanner.tsx lines 136–140). -/
def firstUrlMatch : List Char → Option (List Char)
  | [] => none
  | c :: cs =>
    match matchAt (c :: cs) with
    | some m => some m
    | none => firstUrlMatch cs

/-- Outcome of the OCR engine call in `confirmImage`: either the recognized
text, or a failure anywhere in the engine pipeline. -/
inductive RecognitionResult where
  | recognized (text : String)
  | engineError
deriving DecidableEq

/-- `confirmImage` (url-scanner.tsx lines 123–154): a no-op when no captured
image is held. Otherwise the image is handed to the OCR engine; on engine
failure the user is alerted; on success the recognized text is matched
against the URL regex — the first match is reported through `onUrlDetected`
and `handleClose` runs, otherwise a no-URL alert is shown. The `finally`
branch clears `isProcessing`. -/
def confirmImage (s : ScannerState) (res : RecognitionResult) : ScannerState × List Effect :=
  match s.capturedImage with
  | none => (s, [])
  | some img =>
    let s1 := { s with isProcessing := true }
    match res with
    | .engineError =>
      ({ s1 with isProcessing := false },
       [Effect.recognize img, Effect.alertMsg recognitionAlert])
    | .recognized text =>
      match firstUrlMatch text.data with
      | some url =>
        let p := handleClose s1
        ({ p.1 with isProcessing := false },
         Effect.recognize img :: Effect.urlDetected (String.mk url) :: p.2)
      | none =>
        ({ s1 with isProcessing := false },
         [Effect.recognize img, Effect.alertMsg noUrlAlert])

/-! ## Analysis submission flow (src/unnamed/part_000) and mock backend -/

/-- A single reported issue: `{ message, severity }` with severity one of
the strings `high`, `medium`, `low`, `info` (part_000 lines 14–17). -/
structure SecurityIssue where
  message : String
  severity : String
deriving DecidableEq

/-- One scored category of the report: `{ score, issues }`. -/
structure Category where
  score : Int
  issues : List SecurityIssue
deriving DecidableEq

/-- The `AnalysisResult` shape of part_000 (lines 19–52): eight named
categories. -/
structure AnalysisResult where
  ssl : Category
  contentSecurity : Category
  vulnerabilities : Category
  phishing : Category
  malware : Category
  webAttacks : Category
  certificateTransparency : Category
  libraries : Category
deriving DecidableEq

/-- The fields of the remote JSON response read by `handleSubmit`
(part_000 lines 89–153): `overall_score`, `security_headers` (a mapping,
embedded as association pairs with values already coerced by `String(...)`),
`recommendations`, `xss_check.issues`, `phishing_check.suspicious_patterns`,
`phishing_check.risk_level`, `malware_check.suspicious_patterns`,
`malware_check.risk_level`, `csrf_check.issues`, `ct_check.ct_status`. -/
structure ApiResponse where
  overall_score : Int
  security_headers : List (String × String)
  recommendations : List String
  xss_issues : List String
  phishing_patterns : List String
  phishing_risk : String
  malware_patterns : List String
  malware_risk : String
  csrf_issues : List String
  ct_status : String
deriving DecidableEq

/-- Tests whether `sub` occurs as a contiguous segment of `cs`. -/
def hasSeg (sub : List Char) : List Char → Bool
  | [] => leadsWith sub []
  | c :: cs => leadsWith sub (c :: cs) || hasSeg sub cs

/-- JavaScript `String.prototype.includes`: substring containment. -/
def strIncludes (s sub : String) : Bool := hasSeg sub.data s.data

/-- JavaScript `String.prototype.toLowerCase` on the ASCII strings used by
the severity heuristics. -/
def jsToLower (s : String) : String := s.map Char.toLower

/-- The response-to-`AnalysisResult` mapping of `handleSubmit`
(part_000 lines 89–153), including the per-category severity heuristics. -/
def mapResponse (d : ApiResponse) : AnalysisResult :=
  { ssl :=
      { score := d.overall_score
        issues := d.security_headers.map fun hv =>
          { message := hv.1 ++ ": " ++ hv.2
            severity :=
              if hv.2 = "Missing" then "high"
              else if strIncludes hv.2 "Invalid" then "medium"
              else "info" } }
    contentSecurity :=
      { score := d.overall_score
        issues :=
          (d.recommendations.filter fun r =>
              strIncludes r "CSP" || strIncludes r "security").map fun r =>
            { message := r
              severity :=
                if strIncludes (jsToLower r) "critical" then "high"
                else if strIncludes (jsToLower r) "implement" then "medium"
                else "low" } }
    vulnerabilities :=
      { score := d.overall_score
        issues := d.xss_issues.map fun i => { message := i, severity := "high" } }
    phishing :=
      { score := d.overall_score
        issues := d.phishing_patterns.map fun p =>
          { message := p
            severity :=
              if d.phishing_risk = "high" then "high"
              else if d.phishing_risk = "medium" then "medium"
              else "low" } }
    malware :=
      { score := d.overall_score
        issues := d.malware_patterns.map fun p =>
          { message := p
            severity :=
              if d.malware_risk = "high" then "high"
              else if d.malware_risk = "medium" then "medium"
              else "low" } }
    webAttacks :=
      { score := d.overall_score
        issues := d.csrf_issues.map fun i =>
          { message := i
            severity := if strIncludes i "No CSRF protection" then "high" else "medium" } }
    certificateTransparency :=
      { score := d.overall_score
        issues :=
          [{ message := d.ct_status
             severity := if strIncludes d.ct_status "Not found" then "high" else "info" }] }
    libraries :=
      { score := d.overall_score
        issues :=
          (d.recommendations.filter fun r =>
              strIncludes r "upgrade" || strIncludes r "implement").map fun r =>
            { message := r
              severity :=
                if strIncludes (jsToLower r) "critical" then "high"
                else "medium" } } }

/-- `Response.ok`: status in the range 200–299. -/
def responseOk (status : Nat) : Bool := 200 ≤ status && status ≤ 299

/-- The HTTP-status-to-message mapping thrown by `handleSubmit` on a non-ok
response (part_000 lines 77–84). -/
def errorMessageForStatus (status : Nat) : String :=
  if status = 404 then "Website not found"
  else if status = 429 then "Too many requests, please try again later"
  else if status = 400 then "Invalid URL format"
  else "Failed to analyze website"

/-- The error toast raised in the `catch` branch of `handleSubmit`
(part_000 lines 162–170): its description string and the form event that its
`Try Again` action passes back to the same `handleSubmit` handler. -/
structure ToastError where
  description : String
  retryEvent : Option Nat
deriving DecidableEq

/-- Outcome of one submission. -/
inductive SubmitOutcome where
  | success (r : AnalysisResult)
  | failure (t : ToastError)
deriving DecidableEq

/-- The response-handling core of `handleSubmit` (part_000 lines 68–176),
with the form event `e` embedded as an opaque identifier and the HTTP
response split into its status and parsed JSON body. A non-ok status throws
the mapped message, which the `catch` branch turns into an error toast whose
retry action re-invokes `handleSubmit` with the original event `e`. -/
def handleSubmit (e : Nat) (status : Nat) (d : ApiResponse) : SubmitOutcome :=
  if responseOk status then .success (mapResponse d)
  else .failure { description := errorMessageForStatus status, retryEvent := some e }

/-- One category of the mock result of `analyzeWebsite`
(src/src/app/actions.ts): a score and plain-string issues. -/
structure MockCategory where
  score : Int
  issues : List String
deriving DecidableEq

/-- The shape returned by the mock backend `analyzeWebsite`
(src/src/app/actions.ts lines 3–20). -/
structure MockAnalysisResult where
  ssl : MockCategory
  contentSecurity : MockCategory
  vulnerabilities : MockCategory
deriving DecidableEq

/-- `analyzeWebsite` (src/src/app/actions.ts lines 3–20): ignores the URL
and returns the canned mock data. -/
def analyzeWebsite (url : String) : MockAnalysisResult :=
  { ssl :=
      { score := 85
        issues := ["Certificate expires in 30 days", "TLS 1.2 supported"] }
    contentSecurity :=
      { score := 70
        issues := ["Missing CSP header", "X-Frame-Options not set"] }
    vulnerabilities :=
      { score := 90
        issues := ["No critical vulnerabilities found", "Server version exposed"] } }

/-! ## Lemmas about the URL matcher and the scanner transitions -/


lemma takeNonSpace_pref (l : List Char) : ∃ r, l = takeNonSpace l ++ r := by
  induction l with
  | nil => exact ⟨[], rfl⟩
  | cons c cs ih =>
    by_cases h : jsWhitespace c = true
    · exact ⟨c :: cs, by simp [takeNonSpace, h]⟩
    · obtain ⟨r, hr⟩ := ih
      refine ⟨r, ?_⟩
      simp only [takeNonSpace, h, if_false, Bool.false_eq_true, List.cons_append, List.cons.injEq,
        true_and]
      exact hr

lemma leadsWith_iff : ∀ (p cs : List Char), leadsWith p cs = true ↔ ∃ t, cs = p ++ t
  | [], cs => by simp [leadsWith]
  | _ :: _, [] => by simp [leadsWith]
  | a :: ps, b :: bs => by
    simp only [leadsWith, Bool.and_eq_true, decide_eq_true_eq, leadsWith_iff ps bs,
      List.cons_append, List.cons.injEq]
    constructor
    · rintro ⟨rfl, t, rfl⟩
      exact ⟨t, rfl, rfl⟩
    · rintro ⟨t, hb, hbs⟩
      exact ⟨hb.symm, t, hbs⟩

lemma matchAt_decomp (cs m : List Char) (h : matchAt cs = some m) :
    ∃ suf, cs = m ++ suf ∧ (leadsWith httpsLit m = true ∨ leadsWith httpLit m = true) := by
  unfold matchAt at h
  by_cases h1 : leadsWith httpsLit cs = true
  · obtain ⟨t, ht⟩ := (leadsWith_iff _ _).1 h1
    have hdrop : cs.drop 8 = t := by
      rw [ht]
      exact List.drop_left httpsLit t
    rw [if_pos h1, hdrop] at h
    by_cases h2 : takeNonSpace t = []
    · rw [if_pos h2] at h
      exact absurd h (by simp)
    · rw [if_neg h2] at h
      injection h with h
      subst h
      obtain ⟨r, hr⟩ := takeNonSpace_pref t
      refine ⟨r, ?_, Or.inl ?_⟩
      · rw [ht, List.append_assoc]
        exact congrArg (fun l => httpsLit ++ l) hr
      · exact (leadsWith_iff _ _).2 ⟨takeNonSpace t, rfl⟩
  · rw [if_neg h1] at h
    by_cases h3 : leadsWith httpLit cs = true
    · obtain ⟨t, ht⟩ := (leadsWith_iff _ _).1 h3
      have hdrop : cs.drop 7 = t := by
        rw [ht]
        exact List.drop_left httpLit t
      rw [if_pos h3, hdrop] at h
      by_cases h2 : takeNonSpace t = []
      · rw [if_pos h2] at h
        exact absurd h (by simp)
      · rw [if_neg h2] at h
        injection h with h
        subst h
        obtain ⟨r, hr⟩ := takeNonSpace_pref t
        refine ⟨r, ?_, Or.inr ?_⟩
        · rw [ht, List.append_assoc]
          exact congrArg (fun l => httpLit ++ l) hr
        · exact (leadsWith_iff _ _).2 ⟨takeNonSpace t, rfl⟩
    · rw [if_neg h3] at h
      exact absurd h (by simp)

lemma matchAt_nil : matchAt [] = none := by decide

lemma firstUrlMatch_none_matchAt (cs : List Char) (h : firstUrlMatch cs = none) :
    ∀ i, matchAt (List.drop i cs) = none := by
  induction cs with
  | nil =>
    intro i
    rw [List.drop_nil]
    exact matchAt_nil
  | cons c cs ih =>
    intro i
    simp only [firstUrlMatch] at h
    cases hm : matchAt (c :: cs) with
    | some m =>
      rw [hm] at h
      simp at h
    | none =>
      rw [hm] at h
      cases i with
      | zero => simpa using hm
      | succ j =>
        rw [List.drop_succ_cons]
        exact ih h j

lemma firstUrlMatch_isSome_of (cs : List Char)
    (h : ∃ i, (matchAt (List.drop i cs)).isSome = true) :
    (firstUrlMatch cs).isSome = true := by
  cases hf : firstUrlMatch cs with
  | some m => rfl
  | none =>
    obtain ⟨i, hi⟩ := h
    rw [firstUrlMatch_none_matchAt cs hf i] at hi
    simp at hi

lemma firstUrlMatch_spec (cs url : List Char) (h : firstUrlMatch cs = some url) :
    ∃ pre suf, cs = pre ++ (url ++ suf) ∧ matchAt (url ++ suf) = some url ∧
      ∀ j < pre.length, matchAt (List.drop j cs) = none := by
  induction cs with
  | nil => simp [firstUrlMatch] at h
  | cons c cs ih =>
    simp only [firstUrlMatch] at h
    cases hm : matchAt (c :: cs) with
    | some m =>
      rw [hm] at h
      simp only [Option.some.injEq] at h
      subst h
      obtain ⟨suf, hsuf, _⟩ := matchAt_decomp _ _ hm
      refine ⟨[], suf, by simpa using hsuf, ?_, by simp⟩
      rw [← hsuf]
      exact hm
    | none =>
      rw [hm] at h
      obtain ⟨pre, suf, hcs, hmat, hleft⟩ := ih h
      refine ⟨c :: pre, suf, by rw [List.cons_append, ← hcs], hmat, ?_⟩
      intro j hj
      cases j with
      | zero => simpa using hm
      | succ k =>
        rw [List.drop_succ_cons]
        exact hleft k (by simpa using hj)

lemma confirmImage_success (s : ScannerState) (img text : String) (url : List Char)
    (himg : s.capturedImage = some img) (hurl : firstUrlMatch text.data = some url) :
    confirmImage s (.recognized text) =
      (⟨false, false, none, none, false⟩,
       Effect.recognize img :: Effect.urlDetected (String.mk url) ::
         (match s.stream with
          | some ms => ms.tracks.map Effect.stopTrack
          | none => [])) := by
  cases s with
  | mk o p st ci r =>
    simp only at himg
    subst himg
    cases st with
    | none => simp [confirmImage, hurl, handleClose, stopCamera]
    | some ms => simp [confirmImage, hurl, handleClose, stopCamera]

/-! ## Claim theorems -/

/-- Claim C8: submitting any URL (in particular `https://example.com`)
against the mock backend `analyzeWebsite` produces a result in which every
category's score equals the mock's fixed score for that category and every
category's issue list is a non-empty array of exactly the mocked strings. -/
theorem analyzeWebsite_mock_result (url : String) :
    (analyzeWebsite url).ssl.score = 85 ∧
    (analyzeWebsite url).ssl.issues =
      ["Certificate expires in 30 days", "TLS 1.2 supported"] ∧
    (analyzeWebsite url).ssl.issues ≠ [] ∧
    (analyzeWebsite url).contentSecurity.score = 70 ∧
    (analyzeWebsite url).contentSecurity.issues =
      ["Missing CSP header", "X-Frame-Options not set"] ∧
    (analyzeWebsite url).contentSecurity.issues ≠ [] ∧
    (analyzeWebsite url).vulnerabilities.score = 90 ∧
    (analyzeWebsite url).vulnerabilities.issues =
      ["No critical vulnerabilities found", "Server version exposed"] ∧
    (analyzeWebsite url).vulnerabilities.issues ≠ [] := by
  refine ⟨rfl, rfl, ?_, rfl, rfl, ?_, rfl, rfl, ?_⟩ <;> simp [analyzeWebsite]

/-- Claim C9: the response mapping of `handleSubmit` assigns every one of
the eight categories the same score, namely the response's `overall_score`
field; no category receives an individually computed score. -/
theorem mapResponse_uniform_scores (d : ApiResponse) :
    (mapResponse d).ssl.score = d.overall_score ∧
    (mapResponse d).contentSecurity.score = d.overall_score ∧
    (mapResponse d).vulnerabilities.score = d.overall_score ∧
    (mapResponse d).phishing.score = d.overall_score ∧
    (mapResponse d).malware.score = d.overall_score ∧
    (mapResponse d).webAttacks.score = d.overall_score ∧
    (mapResponse d).certificateTransparency.score = d.overall_score ∧
    (mapResponse d).libraries.score = d.overall_score :=
  ⟨rfl, rfl, rfl, rfl, rfl, rfl, rfl, rfl⟩

/-- Claim C10: invoking `confirmImage` when no captured image is held is a
no-op — no effect is emitted (no recognition call, no URL report, no alert)
and the state is returned unchanged. -/
theorem confirmImage_no_image_noop (s : ScannerState) (res : RecognitionResult)
    (h : s.capturedImage = none) :
    confirmImage s res = (s, []) := by
  cases s with
  | mk o p st ci r =>
    simp only at h
    subst h
    rfl

/-- Witness for C10 at a concrete idle state. -/
theorem confirmImage_no_image_noop_check :
    confirmImage ⟨false, false, none, none, false⟩ .engineError =
      (⟨false, false, none, none, false⟩, []) :=
  confirmImage_no_image_noop ⟨false, false, none, none, false⟩ .engineError rfl

/-- Counterexample to claim C7: when the camera request is denied after
opening the scanner from the idle state, the dialog does not close —
`handleOpen` sets `isOpen` to `true` and the `catch` branch of `startCamera`
never resets it, so the state does not return to Idle as claimed. -/
theorem handleOpen_denied_dialog_stays_open :
    (handleOpen ⟨false, false, none, none, false⟩ CameraResult.denied).1.isOpen = true ∧
    ¬(handleOpen ⟨false, false, none, none, false⟩ CameraResult.denied).1.isOpen = false := by
  decide

/-- Claim C7 as amended: when the camera request is denied, the permission
alert is surfaced, no stream is acquired (the stream component is unchanged,
hence absent when starting from Idle) and the readiness flag is `false`, but
the dialog remains open rather than returning to Idle. -/
theorem handleOpen_denied_behavior (s : ScannerState) :
    handleOpen s .denied =
      ({ s with isOpen := true, isCameraReady := false },
       [Effect.alertMsg cameraPermissionAlert]) :=
  rfl

/-- Claim C6: for every non-2xx HTTP response, `handleSubmit` raises an
error toast whose message is determined by the status code (404, 429, 400,
else generic) and whose retry action re-invokes the same handler with the
original form event. -/
theorem handleSubmit_error_mapping (e status : Nat) (d : ApiResponse)
    (h : responseOk status = false) :
    handleSubmit e status d =
      .failure { description := errorMessageForStatus status, retryEvent := some e } ∧
    errorMessageForStatus 404 = "Website not found" ∧
    errorMessageForStatus 429 = "Too many requests, please try again later" ∧
    errorMessageForStatus 400 = "Invalid URL format" ∧
    (status ≠ 404 → status ≠ 429 → status ≠ 400 →
      errorMessageForStatus status = "Failed to analyze website") := by
  refine ⟨?_, rfl, rfl, rfl, ?_⟩
  · simp [handleSubmit, h]
  · intro h1 h2 h3
    simp [errorMessageForStatus, h1, h2, h3]

/-- Witness for C6 at status 429 with a concrete response body. -/
theorem handleSubmit_error_mapping_check :
    responseOk 429 = false ∧
    handleSubmit 7 429 ⟨0, [], [], [], [], "", [], "", [], ""⟩ =
      .failure { description := errorMessageForStatus 429, retryEvent := some 7 } ∧
    errorMessageForStatus 429 = "Too many requests, please try again later" :=
  ⟨by decide,
   (handleSubmit_error_mapping 7 429 ⟨0, [], [], [], [], "", [], "", [], ""⟩ (by decide)).1,
   (handleSubmit_error_mapping 7 429 ⟨0, [], [], [], [], "", [], "", [], ""⟩ (by decide)).2.2.1⟩

/-- Counterexample to claim C5: a capture request that fails because the
readiness flag is `false` does not raise any alert — the guard of
`captureImage` returns silently with no effect and no state change, whereas
the claim says every such failure is surfaced as an alert. -/
theorem captureImage_not_ready_silent :
    captureImage ⟨true, false, some ⟨[0]⟩, none, false⟩ true true false "" =
      (⟨true, false, some ⟨[0]⟩, none, false⟩, []) ∧
    Effect.alertMsg captureAlert ∉
      (captureImage ⟨true, false, some ⟨[0]⟩, none, false⟩ true true false "").2 := by
  decide

/-- Claim C5 as amended: when the readiness flag is `false` (or the video
element is absent) a capture request is a silent no-op — no alert, state
unchanged; when the video element is present and ready but the buffered data
is insufficient or the encoded payload is too small, a capture alert is
raised; in every such failure the camera session is not torn down: the
stream component is unchanged and no track-stop effect is emitted, and the
processing flag ends `false`. -/
theorem captureImage_failure_behavior (s : ScannerState)
    (videoPresent ctxPresent readyEnough : Bool) (imageData : String) :
    ((videoPresent = false ∨ s.isCameraReady = false) →
      captureImage s videoPresent ctxPresent readyEnough imageData = (s, [])) ∧
    (videoPresent = true → s.isCameraReady = true → ctxPresent = true →
      (readyEnough = false ∨ imageData.length ≤ 100) →
      Effect.alertMsg captureAlert ∈
        (captureImage s videoPresent ctxPresent readyEnough imageData).2 ∧
      (captureImage s videoPresent ctxPresent readyEnough imageData).1.stream = s.stream ∧
      (∀ t, Effect.stopTrack t ∉
        (captureImage s videoPresent ctxPresent readyEnough imageData).2) ∧
      (captureImage s videoPresent ctxPresent readyEnough imageData).1.isProcessing = false ∧
      (captureImage s videoPresent ctxPresent readyEnough imageData).1.isOpen = s.isOpen) := by
  constructor
  · rintro (h | h) <;> simp [captureImage, h]
  · intro hv hr hc hfail
    subst hv
    subst hc
    rcases hfail with hre | hlen
    · subst hre
      refine ⟨?_, ?_, ?_, ?_, ?_⟩ <;> simp [captureImage, hr]
    · have hcond : ¬(imageData ≠ "" ∧ imageData.length > 100) := by
        rintro ⟨-, hgt⟩
        omega
      cases readyEnough <;>
        · refine ⟨?_, ?_, ?_, ?_, ?_⟩ <;> simp [captureImage, hr, hcond]

/-- Witness for the amended C5 at a live state with insufficient buffered
data. -/
theorem captureImage_failure_behavior_check :
    Effect.alertMsg captureAlert ∈
      (captureImage ⟨true, false, some ⟨[5]⟩, none, true⟩ true true false "x").2 ∧
    (captureImage ⟨true, false, some ⟨[5]⟩, none, true⟩ true true false "x").1.stream =
      some ⟨[5]⟩ :=
  have h := (captureImage_failure_behavior ⟨true, false, some ⟨[5]⟩, none, true⟩
      true true false "x").2 rfl rfl rfl (Or.inl rfl)
  ⟨h.1, h.2.1⟩

/-- Claim C3 evaluated at its failing input (a live, ready camera with a
one-track stream, enough buffered data and a valid 101-character payload):
the capture takes the success path — the only effect is stopping the track,
no alert — yet the resulting state holds no captured image, because
`stopCamera` unconditionally resets `capturedImage` after `captureImage`
stores it. The claim (and the code's own comment and confirm/retake UI)
expects the image to be retained. -/
theorem captureImage_success_drops_image :
    (captureImage ⟨true, false, some ⟨[0]⟩, none, true⟩ true true true
        (String.mk (List.replicate 101 'a'))).1.capturedImage = none ∧
    (captureImage ⟨true, false, some ⟨[0]⟩, none, true⟩ true true true
        (String.mk (List.replicate 101 'a'))).1.stream = none ∧
    (captureImage ⟨true, false, some ⟨[0]⟩, none, true⟩ true true true
        (String.mk (List.replicate 101 'a'))).2 = [Effect.stopTrack 0] := by
  decide

/-- Claim C2: from every state of the scanner widget, `handleClose` releases
the camera stream if one is held (a stop effect is emitted for every track
of the held stream and the stream reference becomes absent), discards any
captured image, resets the readiness flag and closes the dialog. -/
theorem handleClose_releases_camera (s : ScannerState) :
    (handleClose s).1.isOpen = false ∧
    (handleClose s).1.stream = none ∧
    (handleClose s).1.capturedImage = none ∧
    (handleClose s).1.isCameraReady = false ∧
    ∀ ms, s.stream = some ms → ∀ t ∈ ms.tracks, Effect.stopTrack t ∈ (handleClose s).2 := by
  rcases hst : s.stream with _ | ms
  · refine ⟨?_, ?_, ?_, ?_, ?_⟩ <;> simp [handleClose, stopCamera, hst]
  · refine ⟨?_, ?_, ?_, ?_, ?_⟩ <;> simp [handleClose, stopCamera, hst]

/-- Witness for C2 at a fully populated state holding a two-track stream. -/
theorem handleClose_releases_camera_check :
    Effect.stopTrack 1 ∈ (handleClose ⟨true, true, some ⟨[1, 2]⟩, some "x", true⟩).2 ∧
    Effect.stopTrack 2 ∈ (handleClose ⟨true, true, some ⟨[1, 2]⟩, some "x", true⟩).2 ∧
    (handleClose ⟨true, true, some ⟨[1, 2]⟩, some "x", true⟩).1.stream = none ∧
    (handleClose ⟨true, true, some ⟨[1, 2]⟩, some "x", true⟩).1.isOpen = false :=
  have h := handleClose_releases_camera ⟨true, true, some ⟨[1, 2]⟩, some "x", true⟩
  ⟨h.2.2.2.2 ⟨[1, 2]⟩ rfl 1 (by decide), h.2.2.2.2 ⟨[1, 2]⟩ rfl 2 (by decide), h.2.1, h.1⟩

/-- Claim C4: when `confirmImage` runs on a held image in the Captured state
(dialog open, stream already released) and the recognized text has no match
of the URL pattern at any position, the no-URL alert is raised, no URL is
reported, the captured image is preserved, the stream stays absent, the
dialog stays open and the processing flag ends `false`. -/
theorem confirm_no_match_keeps_state (s : ScannerState) (img text : String)
    (himg : s.capturedImage = some img) (hopen : s.isOpen = true)
    (hstream : s.stream = none) (hnone : firstUrlMatch text.data = none) :
    Effect.alertMsg noUrlAlert ∈ (confirmImage s (.recognized text)).2 ∧
    (∀ u, Effect.urlDetected u ∉ (confirmImage s (.recognized text)).2) ∧
    (confirmImage s (.recognized text)).1.capturedImage = some img ∧
    (confirmImage s (.recognized text)).1.stream = none ∧
    (confirmImage s (.recognized text)).1.isOpen = true ∧
    (confirmImage s (.recognized text)).1.isProcessing = false ∧
    ∀ i, matchAt (List.drop i text.data) = none := by
  have hconf : confirmImage s (.recognized text) =
      ({ s with isProcessing := false },
       [Effect.recognize img, Effect.alertMsg noUrlAlert]) := by
    cases s with
    | mk o p st ci r =>
      simp only at himg
      subst himg
      simp [confirmImage, hnone]
  rw [hconf]
  refine ⟨by simp, ?_, by simpa using himg, by simpa using hstream, by simpa using hopen,
    rfl, firstUrlMatch_none_matchAt _ hnone⟩
  intro u
  simp

/-- Witness for C4 at a concrete Captured state and a matchless text. -/
theorem confirm_no_match_keeps_state_check :
    Effect.alertMsg noUrlAlert ∈
      (confirmImage ⟨true, false, none, some "im", false⟩ (.recognized "hello world")).2 ∧
    (confirmImage ⟨true, false, none, some "im", false⟩
        (.recognized "hello world")).1.capturedImage = some "im" :=
  have h := confirm_no_match_keeps_state ⟨true, false, none, some "im", false⟩ "im"
    "hello world" rfl rfl rfl (by decide)
  ⟨h.1, h.2.2.1⟩

/-- Claim C1: when `confirmImage` runs on a held image and the recognized
text contains at least one substring matching `https?://` followed by one or
more non-whitespace characters, the URL reported through `onUrlDetected` is
exactly the first such match — a verbatim segment of the text, matched at
the leftmost matching position — it is the only URL reported, and afterwards
the session is fully torn down: dialog closed, stream absent, every track of
a held stream stopped, image discarded, readiness and processing flags
cleared. -/
theorem confirm_reports_first_url (s : ScannerState) (img text : String)
    (himg : s.capturedImage = some img)
    (hmatch : ∃ i, (matchAt (List.drop i text.data)).isSome = true) :
    ∃ url, firstUrlMatch text.data = some url ∧
      Effect.urlDetected (String.mk url) ∈ (confirmImage s (.recognized text)).2 ∧
      (∀ u, Effect.urlDetected u ∈ (confirmImage s (.recognized text)).2 →
        u = String.mk url) ∧
      (confirmImage s (.recognized text)).1.isOpen = false ∧
      (confirmImage s (.recognized text)).1.stream = none ∧
      (confirmImage s (.recognized text)).1.capturedImage = none ∧
      (confirmImage s (.recognized text)).1.isCameraReady = false ∧
      (confirmImage s (.recognized text)).1.isProcessing = false ∧
      (∀ ms, s.stream = some ms →
        ∀ t ∈ ms.tracks, Effect.stopTrack t ∈ (confirmImage s (.recognized text)).2) ∧
      ∃ pre suf, text.data = pre ++ (url ++ suf) ∧ matchAt (url ++ suf) = some url ∧
        ∀ j < pre.length, matchAt (List.drop j text.data) = none := by
  have hsome := firstUrlMatch_isSome_of _ hmatch
  cases hurl : firstUrlMatch text.data with
  | none =>
    rw [hurl] at hsome
    simp at hsome
  | some url =>
    have hconf := confirmImage_success s img text url himg hurl
    rcases hst : s.stream with _ | ms
    · rw [hst] at hconf
      refine ⟨url, rfl, ?_, ?_, ?_, ?_, ?_, ?_, ?_, ?_, firstUrlMatch_spec _ _ hurl⟩
      · rw [hconf]
        simp
      · intro u hu
        rw [hconf] at hu
        simpa using hu
      · rw [hconf]
      · rw [hconf]
      · rw [hconf]
      · rw [hconf]
      · rw [hconf]
      · intro ms' hms'
        cases hms'
    · rw [hst] at hconf
      refine ⟨url, rfl, ?_, ?_, ?_, ?_, ?_, ?_, ?_, ?_, firstUrlMatch_spec _ _ hurl⟩
      · rw [hconf]
        simp
      · intro u hu
        rw [hconf] at hu
        simpa using hu
      · rw [hconf]
      · rw [hconf]
      · rw [hconf]
      · rw [hconf]
      · rw [hconf]
      · intro ms' hms' t ht
        injection hms' with hms'
        subst hms'
        rw [hconf]
        exact List.mem_cons_of_mem _ (List.mem_cons_of_mem _ (List.mem_map_of_mem _ ht))

/-- Witness for C1 at a concrete Captured state and a text with one URL. -/
theorem confirm_reports_first_url_check :
    ∃ url, firstUrlMatch ("go https://ab now" : String).data = some url ∧
      Effect.urlDetected (String.mk url) ∈
        (confirmImage ⟨true, false, none, some "im", false⟩
          (.recognized "go https://ab now")).2 ∧
      (confirmImage ⟨true, false, none, some "im", false⟩
          (.recognized "go https://ab now")).1.isOpen = false :=
  match confirm_reports_first_url ⟨true, false, none, some "im", false⟩ "im"
      "go https://ab now" rfl ⟨3, by decide⟩ with
  | ⟨url, h1, h2, _, h4, _⟩ => ⟨url, h1, h2, h4⟩

end ShieldCheck
